import Mathlib

/-!
# A shallow embedding of `src/stateMachine.ts` (SnowState.js)

The TypeScript class `SnowState` is a finite-state-machine engine.  We embed
its runtime data and methods as plain Lean functions:

* plain-object `Record`s and ES `Map`s become association lists
  (`List (String × _)`) with JavaScript assignment semantics
  (overwrite-in-place, append new keys at the end);
* user callbacks (`StateMethod`, `LeaveEnterMethod`, guards) are arbitrary
  user code; the engine only ever *invokes* them, so a callback is embedded
  as an identifier (`Nat`) and every method additionally returns the trace
  of callback invocations it performed, each with the argument value passed
  (`none` models passing no argument / `undefined`);
* a transition guard (`condition?: () => boolean`) is embedded by the
  boolean it returns when evaluated, `Option Bool` (`none` = no guard);
* fallible methods return `Except JsError _`; JavaScript `Date.now()` is an
  explicit `now : Int` argument.
-/

namespace SnowState

/-- `data?: any` argument values; `none` models JavaScript `undefined`
(no argument passed). -/
abbrev Data := Option Nat

/-- A user callback, identified by an id; the engine never inspects a
callback, it only invokes it. -/
abbrev Callback := Nat

/-- One observable invocation of a user callback: which callback ran, and
the argument value it was passed (`none` = called with no argument). -/
structure Ev where
  cb : Callback
  arg : Data
deriving DecidableEq, Repr

/-- `export const SONWSTATE_WILDCARD_TRANSITION_NAME = "*"` (sic). -/
def SONWSTATE_WILDCARD_TRANSITION_NAME : String := "*"

/-- `export const SNOWSTATE_REFLEXIVE_TRANSITION_NAME = "="`. -/
def SNOWSTATE_REFLEXIVE_TRANSITION_NAME : String := "="

/-- Property read on a plain object / `Map.get`: first entry with the key. -/
def lookup {α : Type} (l : List (String × α)) (k : String) : Option α :=
  (l.find? (fun p => p.1 == k)).map (·.2)

/-- Property assignment on a plain object / `Map.set`: overwrite the entry
in place if the key exists, else append it. -/
def setEntry {α : Type} (l : List (String × α)) (k : String) (v : α) :
    List (String × α) :=
  if (l.find? (fun p => p.1 == k)).isSome then
    l.map (fun p => if p.1 == k then (k, v) else p)
  else
    l ++ [(k, v)]

/-- A state's event table (`MergeStateObject`): event name → callback;
the optional builtin lifecycle callbacks live under `"enter"`/`"leave"`. -/
abbrev StateObject := List (String × Callback)

/-- `interface TransitionRecord`. -/
structure TransitionRecord where
  destState : String
  condition : Option Bool
  leaveFunc : Option Callback
  enterFunc : Option Callback
deriving DecidableEq, Repr

/-- Modelled from the spec: the error classes of `src/errors.ts`
(imported as `SnowStateError` but the file is not under `src/`); §7 of the
spec distinguishes `NameCollisionError`, `UnknownStateError` and
`InvalidArgumentError`, matching the three throw-site message families of
`stateMachine.ts`. -/
inductive SnowStateError where
  | nameCollision (keys : List String)
  | unknownState (name : String)
  | invalidArgument (msg : String)
deriving DecidableEq, Repr

/-- A thrown exception: either an engine `SnowStateError`, or a JavaScript
`TypeError` from reading a property of `undefined` (the argument records
the current state whose object was missing). -/
inductive JsError where
  | snow (e : SnowStateError)
  | typeError (missingState : String)
deriving DecidableEq, Repr

/-- The instance fields of `class SnowState` (its own properties at
construction time, before any dynamic event method is installed). -/
def instanceFieldNames : List String :=
  ["state", "defaultEventMethods", "stateObjects", "previousState",
   "stateHistory", "isHistoryEnabled", "maxHistorySize", "stateStartTime",
   "addedEvents", "stateTransitions", "wildcardTransitions",
   "emptyLeaveMethod"]

/-- The methods on `SnowState.prototype` (class methods are prototype
properties, not own properties of the instance). -/
def prototypeMethodNames : List String :=
  ["constructor", "checkForIllegalKeys", "addMethodToStateMachine",
   "eventSetDefaultMethod", "add", "change", "stateIs", "stateExists",
   "getStates", "getCurrentState", "getPreviousState", "historyEnable",
   "historyDisable", "historyIsEnabled", "historySetMaxSize",
   "historyGetMaxSize", "historyGet", "getTime", "setTime", "enter",
   "leave", "eventExists", "eventGetCurrentLeaveMethod", "addTransition",
   "trigger", "addWildcardTransition", "addReflexiveTransition",
   "transitionExists"]

/-- The mutable fields of a `SnowState` instance. -/
structure Machine where
  state : String
  defaultEventMethods : List (String × Callback)
  stateObjects : List (String × StateObject)
  previousState : Option String
  stateHistory : List String
  isHistoryEnabled : Bool
  maxHistorySize : Int
  stateStartTime : Int
  addedEvents : List String
  stateTransitions : List (String × List (String × List TransitionRecord))
  wildcardTransitions : List (String × List TransitionRecord)
  /-- Event names for which a dispatch closure has been installed as an own
  property of the instance by `addMethodToStateMachine`. -/
  installedEvents : List String
deriving DecidableEq, Repr

/-- `constructor(initialState: string)` / `createSnowState`. -/
def createSnowState (initialState : String) (now : Int) : Machine :=
  { state := initialState
    defaultEventMethods := []
    stateObjects := []
    previousState := none
    stateHistory := []
    isHistoryEnabled := false
    maxHistorySize := 10
    stateStartTime := now
    addedEvents := ["enter", "leave"]
    stateTransitions := []
    wildcardTransitions := []
    installedEvents := [] }

/-- `Object.getOwnPropertyDescriptor(this, key)` is defined exactly for the
instance fields and the dynamically installed event methods (prototype
methods are not own properties). -/
def hasOwnProp (m : Machine) (key : String) : Bool :=
  instanceFieldNames.contains key || m.installedEvents.contains key

/-- Truthiness of the member lookup `this[eventName]` at the call sites of
`addMethodToStateMachine` and `add`: those sites run only after
`checkForIllegalKeys`, which rejects every instance-field key, so the
lookup can only hit a prototype method or an installed event closure —
both functions, hence truthy. -/
def truthyMember (m : Machine) (key : String) : Bool :=
  prototypeMethodNames.contains key || m.installedEvents.contains key

/-- `protected checkForIllegalKeys(eventNames: string[])`. -/
def checkForIllegalKeys (m : Machine) (eventNames : List String) :
    Except JsError Unit :=
  let illegalKeys := eventNames.filter
    (fun key => hasOwnProp m key && !(m.addedEvents.contains key))
  if illegalKeys.length > 0 then
    .error (.snow (.nameCollision illegalKeys))
  else
    .ok ()

/-- `protected addMethodToStateMachine(eventName: string)`: early-returns
when `this[eventName]` is truthy, else records the event name and installs
the dispatch closure as an own property. -/
def addMethodToStateMachine (m : Machine) (eventName : String) : Machine :=
  if truthyMember m eventName then m
  else
    { m with
      addedEvents :=
        if m.addedEvents.contains eventName then m.addedEvents
        else m.addedEvents ++ [eventName]
      installedEvents := m.installedEvents ++ [eventName] }

/-- The dispatch closure installed by `addMethodToStateMachine`: reads
`this.stateObjects[this.state]` (a `TypeError` when the current state has
no registered object), invokes the state's callback for `eventName` when it
is a function, else the default event method when present, else nothing.
All invocations pass no argument. -/
def dispatch (m : Machine) (eventName : String) : Except JsError (List Ev) :=
  match lookup m.stateObjects m.state with
  | none => .error (.typeError m.state)
  | some currentState =>
    match lookup currentState eventName with
    | some f => .ok [⟨f, none⟩]
    | none =>
      match lookup m.defaultEventMethods eventName with
      | some f => .ok [⟨f, none⟩]
      | none => .ok []

/-- `public eventSetDefaultMethod(eventName, method)`. -/
def eventSetDefaultMethod (m : Machine) (eventName : String)
    (method : Callback) : Except JsError Machine :=
  match checkForIllegalKeys m [eventName] with
  | .error e => .error e
  | .ok _ =>
    let dm := setEntry m.defaultEventMethods eventName method
    let m1 := { m with defaultEventMethods := dm }
    .ok (addMethodToStateMachine m1 eventName)

/-- `public add(stateName, stateObject)`: collision check, store the event
table, then install a dispatch method for each event key (the caller's
`if (!this[eventName])` pre-check is subsumed by the early return inside
`addMethodToStateMachine`). -/
def add (m : Machine) (stateName : String) (stateObject : StateObject) :
    Except JsError Machine :=
  match checkForIllegalKeys m (stateObject.map (·.1)) with
  | .error e => .error e
  | .ok _ =>
    let m1 := { m with stateObjects := setEntry m.stateObjects stateName stateObject }
    .ok ((stateObject.map (·.1)).foldl addMethodToStateMachine m1)

/-- The history update inside `change`: `push` the outgoing state, then a
single `shift()` when the length exceeds the configured maximum. -/
def pushCapped (h : List String) (s : String) (max : Int) : List String :=
  let h2 := h ++ [s]
  if (h2.length : Int) > max then h2.tail else h2

/-- The leave phase of `change`: an explicit override is invoked as
`leaveFunc(data)`; otherwise the registered callback is invoked as
`currentStateObject.leave?.()` — with *no* argument — and reading `.leave`
of an unregistered current state's (undefined) object is a `TypeError`. -/
def leavePhase (m : Machine) (leaveFunc : Option Callback) (data : Data) :
    Except JsError (List Ev) :=
  match leaveFunc with
  | some f => .ok [⟨f, data⟩]
  | none =>
    match lookup m.stateObjects m.state with
    | none => .error (.typeError m.state)
    | some currentStateObject =>
      match lookup currentStateObject "leave" with
      | some f => .ok [⟨f, none⟩]
      | none => .ok []

/-- The bookkeeping steps of `change`: set `previousState`, update the
history when enabled, commit the new state and reset the start time. -/
def commitState (now : Int) (m : Machine) (stateName : String) : Machine :=
  let m1 := { m with previousState := some m.state }
  let m2 :=
    if m1.isHistoryEnabled then
      { m1 with stateHistory := pushCapped m1.stateHistory m1.state m1.maxHistorySize }
    else m1
  { m2 with state := stateName, stateStartTime := now }

/-- The enter phase of `change`: an explicit override is invoked as
`enterFunc(data)`; otherwise the destination's registered callback is
invoked as `newStateObject.enter?.()` — with no argument.  (`change`
already verified the destination is registered.) -/
def enterPhase (m3 : Machine) (stateName : String)
    (enterFunc : Option Callback) (data : Data) : List Ev :=
  let newStateObject := (lookup m3.stateObjects stateName).getD []
  match enterFunc with
  | some f => [⟨f, data⟩]
  | none =>
    match lookup newStateObject "enter" with
    | some f => [⟨f, none⟩]
    | none => []

/-- `public change(stateName, leaveFunc?, enterFunc?, data?)`.  Returns the
updated machine and the trace of callback invocations, in source order:
existence check, leave phase, bookkeeping and commit, enter phase. -/
def change (now : Int) (m : Machine) (stateName : String)
    (leaveFunc enterFunc : Option Callback) (data : Data) :
    Except JsError (Machine × List Ev) :=
  if (lookup m.stateObjects stateName).isNone then
    .error (.snow (.unknownState stateName))
  else
    match leavePhase m leaveFunc data with
    | .error e => .error e
    | .ok leaveEvs =>
      let m3 := commitState now m stateName
      .ok (m3, leaveEvs ++ enterPhase m3 stateName enterFunc data)

/-- `public stateIs(stateName)`: the interface declares a second optional
`stateToCheck` parameter, the implementation takes only `stateName`, so a
second argument is ignored by JavaScript call semantics. -/
def stateIs (m : Machine) (stateName : String) (stateToCheck : Option String) :
    Bool :=
  stateName == m.state

/-- `public stateExists(stateName)`. -/
def stateExists (m : Machine) (stateName : String) : Bool :=
  (lookup m.stateObjects stateName).isSome

/-- `public historySetMaxSize(size)`: throws for `size < 1`, else sets the
cap and trims to `slice(-size)` (the most recent `size` entries) when the
buffer is longer. -/
def historySetMaxSize (m : Machine) (size : Int) : Except JsError Machine :=
  if size < 1 then
    .error (.snow (.invalidArgument "History size must be at least 1"))
  else
    let m1 := { m with maxHistorySize := size }
    if (m1.stateHistory.length : Int) > size then
      let trimmed := m1.stateHistory.drop (m1.stateHistory.length - size.toNat)
      .ok { m1 with stateHistory := trimmed }
    else
      .ok m1

/-- The guard test in `trigger`'s loops:
`!transition.condition || transition.condition()`. -/
def passes (t : TransitionRecord) : Bool :=
  t.condition.getD true

/-- The `for`-loop over an ordered transition list: the first record whose
guard is absent or returned `true`, if any. -/
def findTransition (records : List TransitionRecord) :
    Option TransitionRecord :=
  records.find? passes

/-- Resolving a record's destination:
`destState == SNOWSTATE_REFLEXIVE_TRANSITION_NAME ? this.state : destState`. -/
def resolveDest (m : Machine) (t : TransitionRecord) : String :=
  if t.destState == SNOWSTATE_REFLEXIVE_TRANSITION_NAME then m.state
  else t.destState

/-- `this.stateTransitions.get(this.state)?.get(transitionName)`: the
ordered list of specific-source transition records the `trigger` loop
scans. -/
def specificList (m : Machine) (transitionName : String) :
    Option (List TransitionRecord) :=
  match lookup m.stateTransitions m.state with
  | none => none
  | some stateTransitions => lookup stateTransitions transitionName

/-- First passing record of an optional list (absent list ≙ no match;
covers the source's `transitions && transitions.length > 0` guard, since an
empty list has no passing record either). -/
def firstPassing (l : Option (List TransitionRecord)) :
    Option TransitionRecord :=
  match l with
  | none => none
  | some ts => findTransition ts

/-- `public trigger(transitionName, data?)`: scan the specific-source list
for the current state and fire its first passing record via `change`
(returning immediately); only if none fired, scan the wildcard list the
same way; if nothing matches, return `this` unchanged. -/
def trigger (now : Int) (m : Machine) (transitionName : String)
    (data : Data) : Except JsError (Machine × List Ev) :=
  match firstPassing (specificList m transitionName) with
  | some t => change now m (resolveDest m t) t.leaveFunc t.enterFunc data
  | none =>
    match firstPassing (lookup m.wildcardTransitions transitionName) with
    | some t => change now m (resolveDest m t) t.leaveFunc t.enterFunc data
    | none => .ok (m, [])

/-- The validation loop of `addTransition` (non-wildcard form): for each
source state in order, check the source exists, then the destination. -/
def checkTransitionStates (m : Machine) (sources : List String)
    (destState : String) : Except JsError Unit :=
  match sources with
  | [] => .ok ()
  | s :: rest =>
    if (lookup m.stateObjects s).isNone then
      .error (.snow (.unknownState s))
    else if (lookup m.stateObjects destState).isNone then
      .error (.snow (.unknownState destState))
    else
      checkTransitionStates m rest destState

/-- The insertion loop of `addTransition` (non-wildcard form): append the
record to the list keyed by `(source, name)`, creating missing maps. -/
def insertTransition
    (st : List (String × List (String × List TransitionRecord)))
    (source name : String) (t : TransitionRecord) :
    List (String × List (String × List TransitionRecord)) :=
  let transitions := (lookup st source).getD []
  let records := (lookup transitions name).getD []
  setEntry st source (setEntry transitions name (records ++ [t]))

/-- The `sourceState` argument of `addTransition`:
`SourceState | SourceState[] | "*"` (the `"*"` string is matched first in
the source, so a plain string source is never the wildcard marker). -/
inductive SourceSpec where
  | one (s : String)
  | many (ss : List String)
  | wildcard
deriving DecidableEq, Repr

/-- `public addTransition(transitionName, sourceState, destState,
condition?, leaveFunc?, enterFunc?)`. -/
def addTransition (m : Machine) (transitionName : String)
    (sourceState : SourceSpec) (destState : String) (condition : Option Bool)
    (leaveFunc enterFunc : Option Callback) : Except JsError Machine :=
  let newRecord : TransitionRecord :=
    { destState := destState, condition := condition,
      leaveFunc := leaveFunc, enterFunc := enterFunc }
  match sourceState with
  | .wildcard =>
    let records := (lookup m.wildcardTransitions transitionName).getD []
    let wt := setEntry m.wildcardTransitions transitionName (records ++ [newRecord])
    .ok { m with wildcardTransitions := wt }
  | .one s =>
    match checkTransitionStates m [s] destState with
    | .error e => .error e
    | .ok _ =>
      let st := insertTransition m.stateTransitions s transitionName newRecord
      .ok { m with stateTransitions := st }
  | .many ss =>
    match checkTransitionStates m ss destState with
    | .error e => .error e
    | .ok _ =>
      let st := ss.foldl (fun st s => insertTransition st s transitionName newRecord) m.stateTransitions
      .ok { m with stateTransitions := st }

/-! ## Concrete machines used by witnesses and counterexamples -/

/-- A machine in state `"a"`, with `"a"` carrying a registered `leave`
callback (id 1) and `"b"` a registered `enter` callback (id 2). -/
def mAB : Machine :=
  { createSnowState "a" 0 with
    stateObjects := [("a", [("leave", 1)]), ("b", [("enter", 2)])] }

/-- Four registered states `a b c d`, history enabled with maximum size 2,
current state `"a"`. -/
def mChain : Machine :=
  { createSnowState "a" 0 with
    isHistoryEnabled := true
    maxHistorySize := 2
    stateObjects := [("a", []), ("b", []), ("c", []), ("d", [])] }

/-- Running `change` along `a → b → c → d` on `mChain` and reading the
resulting history buffer. -/
def chainHistory : Except JsError (List String) := do
  let (m1, _) ← change 1 mChain "b" none none none
  let (m2, _) ← change 2 m1 "c" none none none
  let (m3, _) ← change 3 m2 "d" none none none
  pure m3.stateHistory

/-- A machine in state `"a"` with a specific-source transition list for
`"go"` on `"a"` — first record guarded false towards `"b"`, second record
unguarded towards `"c"` with override callbacks 4/5 — and a same-named
unguarded wildcard transition towards `"b"`. -/
def mTrig : Machine :=
  { createSnowState "a" 0 with
    stateObjects := [("a", []), ("b", []), ("c", [])]
    stateTransitions :=
      [("a", [("go", [⟨"b", some false, none, none⟩, ⟨"c", none, some 4, some 5⟩])])]
    wildcardTransitions := [("go", [⟨"b", none, none, none⟩])] }

/-! ## Helper lemmas -/

/-- Structure-level reads of `commitState`. -/
theorem commitState_stateObjects (now : Int) (m : Machine) (s : String) :
    (commitState now m s).stateObjects = m.stateObjects := by
  dsimp only [commitState]
  split <;> rfl

theorem commitState_stateHistory (now : Int) (m : Machine) (s : String) :
    (commitState now m s).stateHistory =
      (if m.isHistoryEnabled then pushCapped m.stateHistory m.state m.maxHistorySize
       else m.stateHistory) := by
  dsimp only [commitState]
  split <;> simp_all

/-- The `trigger` loop returns the first record whose guard is absent or
passed, skipping every earlier failing record. -/
theorem findTransition_first_pass (pre post : List TransitionRecord)
    (r : TransitionRecord) (hpre : ∀ t ∈ pre, passes t = false)
    (hr : passes r = true) :
    findTransition (pre ++ r :: post) = some r := by
  induction pre with
  | nil => simpa [findTransition] using List.find?_cons_of_pos post hr
  | cons a as ih =>
    have ha : passes a = false := hpre a (List.mem_cons_self a as)
    have ih' := ih (fun t ht => hpre t (List.mem_cons_of_mem a ht))
    simpa [findTransition, List.cons_append, List.find?_cons_of_neg, ha]
      using ih'

/-- The `trigger` loop finds nothing when every guard failed. -/
theorem findTransition_none (l : List TransitionRecord)
    (h : ∀ t ∈ l, passes t = false) :
    findTransition l = none := by
  induction l with
  | nil => rfl
  | cons a as ih =>
    have ha : passes a = false := h a (List.mem_cons_self a as)
    have ih' := ih (fun t ht => h t (List.mem_cons_of_mem a ht))
    simpa [findTransition, List.find?_cons_of_neg, ha] using ih'

/-! ## Claims -/

/-- C2: for every machine and every state name `X` that is not registered,
`change(X, …)` throws `UnknownStateError` and performs no side effects: the
call returns the bare error before any step runs, so no updated machine is
produced — current state, previous state, history and timestamp remain
those of the untouched input — and the (empty) result carries no callback
invocation. -/
theorem c2_change_unknown_state_error (m : Machine) (now : Int) (X : String)
    (lf ef : Option Callback) (d : Data)
    (h : lookup m.stateObjects X = none) :
    change now m X lf ef d = .error (.snow (.unknownState X)) := by
  simp [change, h]

theorem c2_witness :
    lookup (createSnowState "a" 0).stateObjects "zzz" = none ∧
      change 7 (createSnowState "a" 0) "zzz" none none none
        = .error (.snow (.unknownState "zzz")) :=
  ⟨rfl, c2_change_unknown_state_error (createSnowState "a" 0) 7 "zzz" none none
    none rfl⟩

/-- C10: `stateIs` ignores its declared optional second argument: the
result is identical for every second argument, and it is `true` exactly
when the first argument equals the current state name. -/
theorem c10_stateIs_ignores_second_argument (m : Machine) (a : String)
    (b b' : Option String) :
    stateIs m a b = stateIs m a b' ∧ (stateIs m a b = true ↔ a = m.state) :=
  ⟨rfl, by simp [stateIs]⟩

theorem c10_witness :
    stateIs mAB "a" none = stateIs mAB "a" (some "q") ∧
      (stateIs mAB "a" none = true ↔ "a" = mAB.state) :=
  c10_stateIs_ignores_second_argument mAB "a" none (some "q")

/-- The machine `mAB` after a successful `change` to `"b"` at time 5. -/
def mABafter : Machine :=
  { mAB with state := "b", previousState := some "a", stateStartTime := 5 }

/-- C4: the claim describes a `"state changed"` notification to listeners
registered via `on`; the class defines no `on` method (`"on"` is not among
its prototype methods) and `change` emits nothing: the complete observable
effect of this successful `change` is exactly the two registered-callback
invocations of its leave and enter phases. -/
theorem c4_change_emits_no_notification :
    change 5 mAB "b" none none none = .ok (mABafter, [⟨1, none⟩, ⟨2, none⟩])
    ∧ prototypeMethodNames.contains "on" = false := ⟨rfl, rfl⟩

/-- C3 counterexample: at this concrete input (`data = some 5`, no
overrides) the registered `leave` (id 1) and `enter` (id 2) callbacks are
invoked with no argument (`none`), not with the data value `some 5` the
claim says they receive. -/
theorem c3_counterexample :
    change 5 mAB "b" none none (some 5) = .ok (mABafter, [⟨1, none⟩, ⟨2, none⟩])
    ∧ (none : Data) ≠ some 5 := ⟨rfl, by decide⟩

/-- C3 (amended): in `change` without overrides, the current state's
registered `leave` callback and the destination's registered `enter`
callback are invoked with *no* argument (`undefined`), not with `data`;
explicit overrides are the ones that receive the `data` value. -/
theorem c3_amended_registered_callbacks_receive_no_argument
    (m : Machine) (now : Int) (dest : String) (data : Data)
    (obj objd : StateObject) (f g : Callback)
    (hcur : lookup m.stateObjects m.state = some obj)
    (hdest : lookup m.stateObjects dest = some objd)
    (hleave : lookup obj "leave" = some f)
    (henter : lookup objd "enter" = some g) :
    change now m dest none none data
      = .ok (commitState now m dest, [⟨f, none⟩, ⟨g, none⟩])
    ∧ ∀ lf ef : Callback,
        change now m dest (some lf) (some ef) data
          = .ok (commitState now m dest, [⟨lf, data⟩, ⟨ef, data⟩]) := by
  have hobjd : lookup (commitState now m dest).stateObjects dest = some objd := by
    rw [commitState_stateObjects]; exact hdest
  constructor
  · simp [change, leavePhase, enterPhase, hcur, hdest, hleave, hobjd, henter]
  · intro lf ef
    simp [change, leavePhase, enterPhase, hdest, hobjd]

theorem c3_witness :
    change 5 mAB "b" none none (some 3)
      = .ok (commitState 5 mAB "b", [⟨1, none⟩, ⟨2, none⟩]) :=
  (c3_amended_registered_callbacks_receive_no_argument mAB 5 "b" (some 3)
    [("leave", 1)] [("enter", 2)] 1 2 rfl rfl rfl rfl).1

/-- C7 counterexample: registering a state whose event table uses the key
`"change"` — the name of a public engine method — does not throw.
`Object.getOwnPropertyDescriptor(this, "change")` is `undefined` because
class methods live on the prototype, not on the instance, so the collision
check passes and `add` succeeds. -/
theorem c7_counterexample :
    add (createSnowState "x" 0) "s" [("change", 9)]
      = .ok { createSnowState "x" 0 with stateObjects := [("s", [("change", 9)])] }
    ∧ prototypeMethodNames.contains "change" = true := ⟨rfl, rfl⟩

/-- The machine produced by registering state `"walk"` carrying an
`"update"` event on a machine constructed in the unregistered state
`"idle"`. -/
def mWalk : Machine :=
  { createSnowState "idle" 0 with
    stateObjects := [("walk", [("update", 7)])]
    addedEvents := ["enter", "leave", "update"]
    installedEvents := ["update"] }

/-- C9 counterexample: `"update"` is an installed event of `mWalk`, yet
invoking its dispatch entry point while the current state `"idle"` is
unregistered throws a TypeError: the closure reads
`this.stateObjects[this.state]` (which is `undefined`) and then one of its
properties — refuting "never fails on its own". -/
theorem c9_counterexample :
    add (createSnowState "idle" 0) "walk" [("update", 7)] = .ok mWalk
    ∧ mWalk.installedEvents.contains "update" = true
    ∧ dispatch mWalk "update" = .error (.typeError "idle") := ⟨rfl, rfl, rfl⟩

/-- C1: `trigger(T)` fires the first record of the current state's
specific-source list for `T` whose guard is absent or passed, performing
that record's `change` — for *every* contents of the later specific records
and of the wildcard table, so neither is consulted; the wildcard list for
`T` is scanned, in insertion order under the same guard policy, only when
no specific-source record passes (including when the list is absent). -/
theorem c1_trigger_specific_precedence (m : Machine) (now : Int)
    (T : String) (data : Data) :
    (∀ pre post r, specificList m T = some (pre ++ r :: post) →
      (∀ t ∈ pre, passes t = false) → passes r = true →
      trigger now m T data
        = change now m (resolveDest m r) r.leaveFunc r.enterFunc data)
    ∧ ((∀ l, specificList m T = some l → ∀ t ∈ l, passes t = false) →
      ∀ wpre wpost wr,
        lookup m.wildcardTransitions T = some (wpre ++ wr :: wpost) →
        (∀ t ∈ wpre, passes t = false) → passes wr = true →
        trigger now m T data
          = change now m (resolveDest m wr) wr.leaveFunc wr.enterFunc data) := by
  constructor
  · intro pre post r hs hpre hr
    unfold trigger
    rw [hs]
    simp [firstPassing, findTransition_first_pass pre post r hpre hr]
  · intro hall wpre wpost wr hw hwpre hwr
    have hnone : firstPassing (specificList m T) = none := by
      cases h : specificList m T with
      | none => rfl
      | some l => simpa [firstPassing] using findTransition_none l (hall l h)
    unfold trigger
    rw [hnone, hw]
    simp [firstPassing, findTransition_first_pass wpre wpost wr hwpre hwr]

theorem c1_witness :
    trigger 9 mTrig "go" (some 1)
      = change 9 mTrig "c" (some 4) (some 5) (some 1) :=
  (c1_trigger_specific_precedence mTrig 9 "go" (some 1)).1
    [⟨"b", some false, none, none⟩] [] ⟨"c", none, some 4, some 5⟩ rfl
    (by decide) rfl

/-- C6: when nothing matches — the specific-source list for the current
state is absent or every one of its guards fails, and likewise the wildcard
list for the name — `trigger` is a no-op, not an error: it returns the
machine unchanged (same current state, previous state, history and
timestamp) with an empty invocation trace, so no leave/enter callback
runs. -/
theorem c6_trigger_no_match_is_noop (m : Machine) (now : Int) (T : String)
    (d : Data)
    (hs : ∀ l, specificList m T = some l → ∀ t ∈ l, passes t = false)
    (hw : ∀ l, lookup m.wildcardTransitions T = some l →
      ∀ t ∈ l, passes t = false) :
    trigger now m T d = .ok (m, []) := by
  have h1 : firstPassing (specificList m T) = none := by
    cases h : specificList m T with
    | none => rfl
    | some l => simpa [firstPassing] using findTransition_none l (hs l h)
  have h2 : firstPassing (lookup m.wildcardTransitions T) = none := by
    cases h : lookup m.wildcardTransitions T with
    | none => rfl
    | some l => simpa [firstPassing] using findTransition_none l (hw l h)
  unfold trigger
  rw [h1, h2]

/-- `mTrig`, but with its only specific record and its only wildcard record
both guarded by a condition that returned `false`. -/
def mNoPass : Machine :=
  { mTrig with
    stateTransitions := [("a", [("go", [⟨"b", some false, none, none⟩])])]
    wildcardTransitions := [("go", [⟨"c", some false, none, none⟩])] }

theorem c6_witness : trigger 9 mNoPass "go" none = .ok (mNoPass, []) := by
  refine c6_trigger_no_match_is_noop mNoPass 9 "go" none ?_ ?_
  · intro l hl t ht
    have he : specificList mNoPass "go"
        = some [(⟨"b", some false, none, none⟩ : TransitionRecord)] := rfl
    rw [he] at hl
    rw [← Option.some.inj hl] at ht
    simp only [List.mem_singleton] at ht
    rw [ht]
    rfl
  · intro l hl t ht
    have he : lookup mNoPass.wildcardTransitions "go"
        = some [(⟨"c", some false, none, none⟩ : TransitionRecord)] := rfl
    rw [he] at hl
    rw [← Option.some.inj hl] at ht
    simp only [List.mem_singleton] at ht
    rw [ht]
    rfl

/-- C5: with history tracking enabled, every successful `change` appends
the state being left (the source, never the destination) to the history
buffer, dropping the oldest entry from the front when the buffer would
exceed the configured maximum size; a freshly constructed machine has an
empty history (the initial state enters it only once left via `change`);
and with maximum size 2 the chain a→b→c→d yields history `["b", "c"]`. -/
theorem c5_history_records_left_states :
    (∀ (m : Machine) (now : Int) (dest : String) (lf ef : Option Callback)
       (d : Data) (m' : Machine) (tr : List Ev),
      m.isHistoryEnabled = true →
      change now m dest lf ef d = .ok (m', tr) →
      m'.stateHistory =
        (if (m.stateHistory.length + 1 : Int) > m.maxHistorySize
         then (m.stateHistory ++ [m.state]).tail
         else m.stateHistory ++ [m.state]))
    ∧ (∀ s now, (createSnowState s now).stateHistory = [])
    ∧ chainHistory = .ok ["b", "c"] := by
  refine ⟨?_, fun s now => rfl, rfl⟩
  intro m now dest lf ef d m' tr hen hch
  unfold change at hch
  split at hch
  · exact absurd hch (by simp)
  · split at hch
    · exact absurd hch (by simp)
    · rw [Except.ok.injEq, Prod.mk.injEq] at hch
      rw [← hch.1, commitState_stateHistory, if_pos hen]
      simp [pushCapped, List.length_append]

theorem c5_witness :
    mChain.isHistoryEnabled = true ∧
      (commitState 1 mChain "b").stateHistory =
        (if (mChain.stateHistory.length + 1 : Int) > mChain.maxHistorySize
         then (mChain.stateHistory ++ [mChain.state]).tail
         else mChain.stateHistory ++ [mChain.state]) :=
  ⟨rfl, (c5_history_records_left_states).1 mChain 1 "b" none none none
    (commitState 1 mChain "b") [] rfl rfl⟩

/-- C7 (amended): state registration (and the default-event operation)
fails with `NameCollisionError` exactly when a key, other than an
already-registered event name, equals an *own* property of the instance —
an engine data field (such as `state` or `stateHistory`) or an installed
event closure; keys equal to public prototype methods such as `change`,
`trigger` or `add` are not detected by the own-property check and the call
succeeds, registering the table without error. -/
theorem c7_amended_only_own_properties_collide (m : Machine)
    (s name : String) (obj : StateObject) (cb : Callback) :
    ((obj.map (·.1)).filter
        (fun key => hasOwnProp m key && !(m.addedEvents.contains key)) ≠ [] →
      add m s obj = .error (.snow (.nameCollision
        ((obj.map (·.1)).filter
          (fun key => hasOwnProp m key && !(m.addedEvents.contains key))))))
    ∧ ((obj.map (·.1)).filter
        (fun key => hasOwnProp m key && !(m.addedEvents.contains key)) = [] →
      ∃ m', add m s obj = .ok m')
    ∧ ((hasOwnProp m name && !(m.addedEvents.contains name)) = true →
      eventSetDefaultMethod m name cb
        = .error (.snow (.nameCollision [name])))
    ∧ ((hasOwnProp m name && !(m.addedEvents.contains name)) = false →
      ∃ m', eventSetDefaultMethod m name cb = .ok m') := by
  refine ⟨?_, ?_, ?_, ?_⟩
  · intro h
    have hpos : 0 < ((obj.map (·.1)).filter
        (fun key => hasOwnProp m key && !(m.addedEvents.contains key))).length :=
      List.length_pos.mpr h
    simp only [add, checkForIllegalKeys]
    rw [if_pos hpos]
  · intro h
    refine ⟨(obj.map (·.1)).foldl addMethodToStateMachine
      { m with stateObjects := setEntry m.stateObjects s obj }, ?_⟩
    simp only [add, checkForIllegalKeys]
    rw [if_neg (by rw [h]; exact lt_irrefl 0)]
  · intro h
    have hf : List.filter
        (fun key => hasOwnProp m key && !(m.addedEvents.contains key)) [name]
        = [name] := by
      simp only [List.filter_cons, List.filter_nil]
      rw [h]
      simp
    simp only [eventSetDefaultMethod, checkForIllegalKeys, hf]
    rw [if_pos (by simp : 0 < ([name] : List String).length)]
  · intro h
    have hf : List.filter
        (fun key => hasOwnProp m key && !(m.addedEvents.contains key)) [name]
        = [] := by
      simp only [List.filter_cons, List.filter_nil]
      rw [h]
      simp
    refine ⟨addMethodToStateMachine
      { m with defaultEventMethods := setEntry m.defaultEventMethods name cb } name, ?_⟩
    simp only [eventSetDefaultMethod, checkForIllegalKeys, hf]
    rw [if_neg (by simp)]

theorem c7_witness :
    add (createSnowState "x" 0) "s" [("stateHistory", 9)]
      = .error (.snow (.nameCollision ["stateHistory"])) :=
  (c7_amended_only_own_properties_collide (createSnowState "x" 0) "s" "q"
    [("stateHistory", 9)] 0).1 (by decide)

/-- C8: `historySetMaxSize(n)` with `n < 1` throws `InvalidArgumentError`,
returning the bare error before any mutation, so buffer and cap are those
of the untouched input; with `n ≥ 1` it sets the cap to `n` and, when the
buffer holds more than `n` entries, truncates it to the most recent `n` by
dropping the oldest entries from the front (its length then equals `n`;
everything else is unchanged). -/
theorem c8_historySetMaxSize (m : Machine) (n : Int) :
    (n < 1 → historySetMaxSize m n
      = .error (.snow (.invalidArgument "History size must be at least 1")))
    ∧ (1 ≤ n → ∃ m', historySetMaxSize m n = .ok m'
        ∧ m'.maxHistorySize = n
        ∧ m'.stateHistory =
            (if (m.stateHistory.length : Int) > n
             then m.stateHistory.drop (m.stateHistory.length - n.toNat)
             else m.stateHistory)
        ∧ ((m.stateHistory.length : Int) > n →
            (m'.stateHistory.length : Int) = n)
        ∧ m'.state = m.state ∧ m'.previousState = m.previousState
        ∧ m'.isHistoryEnabled = m.isHistoryEnabled) := by
  constructor
  · intro h
    simp [historySetMaxSize, h]
  · intro h
    have h1 : ¬ n < 1 := not_lt.mpr h
    by_cases h2 : (m.stateHistory.length : Int) > n
    · have hm : historySetMaxSize m n = .ok { m with maxHistorySize := n, stateHistory := m.stateHistory.drop (m.stateHistory.length - n.toNat) } := by
        simp [historySetMaxSize, h1, h2]
      refine ⟨_, hm, rfl, ?_, ?_, rfl, rfl, rfl⟩
      · simp [h2]
      · intro _
        have hn : n.toNat ≤ m.stateHistory.length := by omega
        have hcast : (n.toNat : Int) = n := Int.toNat_of_nonneg (by omega)
        simp only [List.length_drop]
        omega
    · have hm : historySetMaxSize m n = .ok { m with maxHistorySize := n } := by
        simp [historySetMaxSize, h1, h2]
      refine ⟨_, hm, rfl, ?_, ?_, rfl, rfl, rfl⟩
      · simp [h2]
      · intro hc
        exact absurd hc h2

theorem c8_witness :
    historySetMaxSize mChain 0
      = .error (.snow (.invalidArgument "History size must be at least 1"))
    ∧ ∃ m', historySetMaxSize { mChain with stateHistory := ["a", "b", "c"] } 2
        = .ok m'
      ∧ m'.maxHistorySize = 2
      ∧ m'.stateHistory =
          (if (({ mChain with stateHistory := ["a", "b", "c"] } : Machine).stateHistory.length : Int) > 2
           then ({ mChain with stateHistory := ["a", "b", "c"] } : Machine).stateHistory.drop
             (({ mChain with stateHistory := ["a", "b", "c"] } : Machine).stateHistory.length - (2 : Int).toNat)
           else ({ mChain with stateHistory := ["a", "b", "c"] } : Machine).stateHistory)
      ∧ ((({ mChain with stateHistory := ["a", "b", "c"] } : Machine).stateHistory.length : Int) > 2 →
          (m'.stateHistory.length : Int) = 2)
      ∧ m'.state = ({ mChain with stateHistory := ["a", "b", "c"] } : Machine).state
      ∧ m'.previousState = ({ mChain with stateHistory := ["a", "b", "c"] } : Machine).previousState
      ∧ m'.isHistoryEnabled = ({ mChain with stateHistory := ["a", "b", "c"] } : Machine).isHistoryEnabled :=
  ⟨(c8_historySetMaxSize mChain 0).1 (by decide),
   (c8_historySetMaxSize { mChain with stateHistory := ["a", "b", "c"] } 2).2
     (by decide)⟩

/-- C9 (amended): the dispatch entry point never fails *when the current
state has a registered event table*: it invokes the current state's
callback for the event when present, else the process-wide default when
one exists, else does nothing; but when the current state has no
registered table (e.g. the unregistered initial state allowed at
construction), dispatch throws a TypeError instead of being a no-op. -/
theorem c9_amended_dispatch_totality (m : Machine) (e : String) :
    (∀ tbl, lookup m.stateObjects m.state = some tbl →
      (∀ f, lookup tbl e = some f → dispatch m e = .ok [⟨f, none⟩])
      ∧ (lookup tbl e = none →
        (∀ f, lookup m.defaultEventMethods e = some f →
          dispatch m e = .ok [⟨f, none⟩])
        ∧ (lookup m.defaultEventMethods e = none → dispatch m e = .ok [])))
    ∧ (lookup m.stateObjects m.state = none →
      dispatch m e = .error (.typeError m.state)) := by
  constructor
  · intro tbl htbl
    refine ⟨fun f hf => ?_, fun hn => ⟨fun f hf => ?_, fun hd => ?_⟩⟩ <;>
      simp [dispatch, htbl, *]
  · intro h
    simp [dispatch, h]

/-- A machine whose current state `"a"` is registered with an `"update"`
callback (id 3). -/
def mReg : Machine :=
  { createSnowState "a" 0 with stateObjects := [("a", [("update", 3)])] }

theorem c9_witness : dispatch mReg "update" = .ok [⟨3, none⟩] :=
  ((c9_amended_dispatch_totality mReg "update").1 [("update", 3)] rfl).1 3 rfl

end SnowState
